import Mathlib

/-!
Verification of the OAuth2 token-introspection request filter
(`src/lib.rs`): a shallow embedding of its data model and decision
pipeline, followed by theorems about the validation engine and the
outcome mapping.

Modelling conventions:
* Rust `u64` values (`exp`, `nbf`, the current time in seconds) are
  `Nat`; the `u64` range bound is enforced where the code enforces it
  (JSON deserialization of `exp`/`nbf`).  The code only compares these
  values, so no wrap-around arithmetic occurs.
* The external collaborators (token extractor, HTTP transport, system
  clock) are passed as explicit inputs: each is replaced by the result
  it returns for the request under evaluation.  A raw HTTP body is
  modelled by the result of parsing it as JSON (`Except String Json`):
  the code observes a body only through `serde_json::from_slice`.
* Error payloads (`HttpClientError`, `serde_json::Error`) are strings.
-/

namespace OAuthFilter

/-- JSON values, as far as the filter observes them.  Numbers are
nonnegative integers (the only numeric fields the code reads are the
`u64` claims `exp` and `nbf`). -/
inductive Json where
  | null : Json
  | bool (b : Bool) : Json
  | num (n : Nat) : Json
  | str (s : String) : Json
  | arr (xs : List Json) : Json
  | obj (fields : List (String × Json)) : Json

/-- `enum FilterError` from `src/lib.rs`. -/
inductive FilterError where
  | Unexpected : FilterError
  | NoToken : FilterError
  | InactiveToken : FilterError
  | ExpiredToken : FilterError
  | NotYetActive : FilterError
  | ClientError (err : String) : FilterError
  | NonParsableIntrospectionBody (err : String) : FilterError
deriving DecidableEq

/-- `struct IntrospectionResponse` from `src/lib.rs`:
`active: bool`, `exp: Option<u64>`, `nbf: Option<u64>`. -/
structure IntrospectionResponse where
  active : Bool
  exp : Option Nat
  nbf : Option Nat
deriving DecidableEq

/-- Deserializing a JSON value as `Option<u64>` (serde semantics for an
optional `u64` field value): `null` gives `none`, a nonnegative integer
below `2^64` gives `some`, anything else is a type error. -/
def asOptU64 : Json → Except String (Option Nat)
  | Json.null => Except.ok none
  | Json.num n =>
      if n < 2 ^ 64 then Except.ok (some n) else Except.error "invalid value: out of u64 range"
  | _ => Except.error "invalid type: expected u64"

/-- Field loop of the serde-derived `Deserialize` for
`IntrospectionResponse`: entries are visited in order, each key matched
against the three field names, duplicate fields are an error, unknown
fields are ignored; at the end `active` is required and a missing
`exp`/`nbf` defaults to `none`.  The accumulators record whether each
field has been seen (`some`) and with which value. -/
def deserFields : List (String × Json) → Option Bool → Option (Option Nat) →
    Option (Option Nat) → Except String IntrospectionResponse
  | [], accA, accE, accN =>
      match accA with
      | none => Except.error "missing field active"
      | some a => Except.ok ⟨a, accE.getD none, accN.getD none⟩
  | (key, v) :: rest, accA, accE, accN =>
      if key = "active" then
        match accA with
        | some _ => Except.error "duplicate field active"
        | none =>
            match v with
            | Json.bool b => deserFields rest (some b) accE accN
            | _ => Except.error "invalid type: expected bool"
      else if key = "exp" then
        match accE with
        | some _ => Except.error "duplicate field exp"
        | none =>
            match asOptU64 v with
            | Except.ok o => deserFields rest accA (some o) accN
            | Except.error msg => Except.error msg
      else if key = "nbf" then
        match accN with
        | some _ => Except.error "duplicate field nbf"
        | none =>
            match asOptU64 v with
            | Except.ok o => deserFields rest accA accE (some o)
            | Except.error msg => Except.error msg
      else
        deserFields rest accA accE accN

/-- The serde-derived deserializer for `IntrospectionResponse`: the JSON
value must be an object, whose fields are processed by `deserFields`. -/
def deserializeIntrospection : Json → Except String IntrospectionResponse
  | Json.obj fields => deserFields fields none none none
  | _ => Except.error "invalid type: expected object"

/-- `serde_json::from_slice::<IntrospectionResponse>` applied to a raw
body: the body is modelled by its JSON parse result, and a parsed JSON
value is then deserialized into the structure. -/
def serde_json_from_slice : Except String Json → Except String IntrospectionResponse
  | Except.error e => Except.error e
  | Except.ok j => deserializeIntrospection j

/-- The introspection endpoint's HTTP response as the code observes it:
`status_code()` and the body (via its JSON parse result). -/
structure HttpResponse where
  status_code : Nat
  body : Except String Json

/-- `introspect_token` from `src/lib.rs`, with the transport call
replaced by its result (`clientResult`): a transport error maps to
`ClientError`; on status exactly 200 the body is deserialized, a parse
failure mapping to `NonParsableIntrospectionBody`; any other status is
`InactiveToken` without looking at the body. -/
def introspect_token (clientResult : Except String HttpResponse) :
    Except FilterError IntrospectionResponse :=
  match clientResult with
  | Except.error e => Except.error (FilterError.ClientError e)
  | Except.ok response =>
      if response.status_code = 200 then
        match serde_json_from_slice response.body with
        | Except.ok r => Except.ok r
        | Except.error e => Except.error (FilterError.NonParsableIntrospectionBody e)
      else
        Except.error FilterError.InactiveToken

/-- `do_filter` from `src/lib.rs`.  Inputs model the collaborators:
`tokenResult` is the token extractor's outcome
(`Err` from `resolve_on_headers`, then `as_str()` giving `Option`),
`clientResult` the transport's outcome, `clock` the
`SystemTime::now().duration_since(UNIX_EPOCH)` outcome in seconds.
The checks mirror the source line by line: extraction failure or a
non-string value is `NoToken`; introspection errors propagate; a clock
error is `Unexpected`; then `active`, `exp` (`now > exp` rejects) and
`nbf` (`now < nbf` rejects) are checked in that order. -/
def do_filter (tokenResult : Except Unit (Option String))
    (clientResult : Except String HttpResponse)
    (clock : Except Unit Nat) : Except FilterError Unit :=
  match tokenResult with
  | Except.error _ => Except.error FilterError.NoToken
  | Except.ok result =>
      match result with
      | none => Except.error FilterError.NoToken
      | some _token =>
          match introspect_token clientResult with
          | Except.error e => Except.error e
          | Except.ok response =>
              match clock with
              | Except.error _ => Except.error FilterError.Unexpected
              | Except.ok now =>
                  if !response.active then
                    Except.error FilterError.InactiveToken
                  else if (response.exp.map fun exp => decide (now > exp)).getD false then
                    Except.error FilterError.ExpiredToken
                  else if (response.nbf.map fun nbf => decide (now < nbf)).getD false then
                    Except.error FilterError.NotYetActive
                  else
                    Except.ok ()

/-- An early HTTP response: `Response::new(status)` has no headers and
an empty body. -/
structure Response where
  status : Nat
  headers : List (String × String)
  body : String
deriving DecidableEq

def Response.new (status : Nat) : Response := ⟨status, [], ""⟩

def Response.with_headers (r : Response) (hs : List (String × String)) : Response :=
  ⟨r.status, hs, r.body⟩

/-- `Flow<()>` as the filter uses it: continue, or break with an early
response. -/
inductive Flow where
  | Continue : Flow
  | Break (r : Response) : Flow
deriving DecidableEq

/-- `unauthorized_response` from `src/lib.rs`. -/
def unauthorized_response : Flow :=
  Flow.Break ((Response.new 401).with_headers
    [("WWW-Authenticate", "Bearer realm=\"oauth2\"")])

/-- `server_error_response` from `src/lib.rs`. -/
def server_error_response : Flow :=
  Flow.Break (Response.new 500)

/-- Log severities used by the filter. -/
inductive LogLevel where
  | debug : LogLevel
  | warn : LogLevel
deriving DecidableEq

/-- The log severity each `FilterError` arm of `request_filter` emits
(`logger::warn!` / `logger::debug!` in `src/lib.rs`). -/
def error_log_level : FilterError → LogLevel
  | FilterError.Unexpected => LogLevel.warn
  | FilterError.NoToken => LogLevel.debug
  | FilterError.InactiveToken => LogLevel.debug
  | FilterError.ExpiredToken => LogLevel.debug
  | FilterError.NotYetActive => LogLevel.debug
  | FilterError.ClientError _ => LogLevel.warn
  | FilterError.NonParsableIntrospectionBody _ => LogLevel.warn

/-- The error match of `request_filter` in `src/lib.rs` (the outcome
mapper for errors): each `FilterError` variant maps to the unauthorized
or the server-error early response. -/
def map_error : FilterError → Flow
  | FilterError.Unexpected => server_error_response
  | FilterError.NoToken => unauthorized_response
  | FilterError.InactiveToken => unauthorized_response
  | FilterError.ExpiredToken => unauthorized_response
  | FilterError.NotYetActive => unauthorized_response
  | FilterError.ClientError _ => server_error_response
  | FilterError.NonParsableIntrospectionBody _ => server_error_response

/-- `request_filter` from `src/lib.rs`: run `do_filter`; `Ok` continues
the request, every error is mapped by the error match (`map_error`). -/
def request_filter (tokenResult : Except Unit (Option String))
    (clientResult : Except String HttpResponse)
    (clock : Except Unit Nat) : Flow :=
  match do_filter tokenResult clientResult clock with
  | Except.ok _ => Flow.Continue
  | Except.error err => map_error err

/-! Helper lemmas shared by the claim theorems. -/

/-- A 200 introspection response whose body deserializes successfully
is returned as-is by `introspect_token`. -/
lemma introspect_200 (raw : Except String Json) (r : IntrospectionResponse)
    (h : serde_json_from_slice raw = Except.ok r) :
    introspect_token (Except.ok ⟨200, raw⟩) = Except.ok r := by
  simp [introspect_token, h]

/-- Reduction of `do_filter` on a resolved token, a 200 response with a
successfully deserialized body, and a working clock: only the three
validity checks remain. -/
lemma do_filter_200 (tok : String) (raw : Except String Json)
    (r : IntrospectionResponse) (now : Nat)
    (h : serde_json_from_slice raw = Except.ok r) :
    do_filter (Except.ok (some tok)) (Except.ok ⟨200, raw⟩) (Except.ok now) =
      (if !r.active then Except.error FilterError.InactiveToken
       else if (r.exp.map fun exp => decide (now > exp)).getD false then
         Except.error FilterError.ExpiredToken
       else if (r.nbf.map fun nbf => decide (now < nbf)).getD false then
         Except.error FilterError.NotYetActive
       else Except.ok ()) := by
  simp [do_filter, introspect_200 raw r h]

/-- C1: for every introspection response with `active == false`,
regardless of the values or presence of `exp` and `nbf`, the validation
engine rejects with `InactiveToken`, and the mapped HTTP response is 401
with the Bearer challenge header. -/
theorem inactive_token_rejected (tok : String) (raw : Except String Json)
    (e n : Option Nat) (now : Nat)
    (h : serde_json_from_slice raw = Except.ok ⟨false, e, n⟩) :
    do_filter (Except.ok (some tok)) (Except.ok ⟨200, raw⟩) (Except.ok now) =
      Except.error FilterError.InactiveToken ∧
    request_filter (Except.ok (some tok)) (Except.ok ⟨200, raw⟩) (Except.ok now) =
      Flow.Break ⟨401, [("WWW-Authenticate", "Bearer realm=\"oauth2\"")], ""⟩ := by
  have hd := do_filter_200 tok raw ⟨false, e, n⟩ now h
  simp only [Bool.not_false, if_true] at hd
  exact ⟨hd, by simp [request_filter, hd, map_error, unauthorized_response,
    Response.new, Response.with_headers]⟩

/-- C1 witness: a concrete `active:false` body with `exp` present is
rejected as `InactiveToken` and answered with 401 plus the challenge
header. -/
theorem inactive_token_rejected_witness :
    do_filter (Except.ok (some "abc123"))
        (Except.ok ⟨200, Except.ok (Json.obj
          [("active", Json.bool false), ("exp", Json.num 500)])⟩)
        (Except.ok 1000000000) =
      Except.error FilterError.InactiveToken ∧
    request_filter (Except.ok (some "abc123"))
        (Except.ok ⟨200, Except.ok (Json.obj
          [("active", Json.bool false), ("exp", Json.num 500)])⟩)
        (Except.ok 1000000000) =
      Flow.Break ⟨401, [("WWW-Authenticate", "Bearer realm=\"oauth2\"")], ""⟩ :=
  inactive_token_rejected "abc123" _ (some 500) none 1000000000 rfl

/-- C2: for an `active == true` response with `exp` present, the engine
yields `ExpiredToken` exactly when `now > exp`; at `now == exp` the
expiry check passes (and with no `nbf` constraint the token is allowed
at that instant). -/
theorem expired_token_boundary (tok : String) (raw : Except String Json)
    (expVal now : Nat) (nbf : Option Nat)
    (h : serde_json_from_slice raw = Except.ok ⟨true, some expVal, nbf⟩) :
    (do_filter (Except.ok (some tok)) (Except.ok ⟨200, raw⟩) (Except.ok now) =
        Except.error FilterError.ExpiredToken ↔ now > expVal) ∧
    (now = expVal →
      do_filter (Except.ok (some tok)) (Except.ok ⟨200, raw⟩) (Except.ok now) ≠
        Except.error FilterError.ExpiredToken) ∧
    (now = expVal → nbf = none →
      do_filter (Except.ok (some tok)) (Except.ok ⟨200, raw⟩) (Except.ok now) =
        Except.ok ()) := by
  have hd := do_filter_200 tok raw ⟨true, some expVal, nbf⟩ now h
  refine ⟨?_, ?_, ?_⟩
  · by_cases hgt : now > expVal
    · simp [hd, hgt]
    · simp [hd, hgt]
      split <;> simp
  · intro heq
    subst heq
    simp [hd]
    split <;> simp
  · intro heq hn
    subst heq
    subst hn
    simp [hd]

/-- C2 witness: with `exp = 1000` the engine rejects with
`ExpiredToken` at `now = 1001` and allows at `now = 1000`. -/
theorem expired_token_boundary_witness :
    do_filter (Except.ok (some "t"))
        (Except.ok ⟨200, Except.ok (Json.obj
          [("active", Json.bool true), ("exp", Json.num 1000)])⟩)
        (Except.ok 1001) = Except.error FilterError.ExpiredToken ∧
    do_filter (Except.ok (some "t"))
        (Except.ok ⟨200, Except.ok (Json.obj
          [("active", Json.bool true), ("exp", Json.num 1000)])⟩)
        (Except.ok 1000) = Except.ok () :=
  ⟨((expired_token_boundary "t"
      (Except.ok (Json.obj [("active", Json.bool true), ("exp", Json.num 1000)]))
      1000 1001 none rfl).1).2 (by decide),
   (expired_token_boundary "t"
      (Except.ok (Json.obj [("active", Json.bool true), ("exp", Json.num 1000)]))
      1000 1000 none rfl).2.2 rfl rfl⟩

/-- C3: for an `active == true` response with `nbf` present and the
expiry check passing, the engine yields `NotYetActive` exactly when
`now < nbf`; at `now == nbf` the not-before check passes and the token
is allowed. -/
theorem not_yet_active_boundary (tok : String) (raw : Except String Json)
    (exp : Option Nat) (nbfVal now : Nat)
    (h : serde_json_from_slice raw = Except.ok ⟨true, exp, some nbfVal⟩)
    (hexp : (exp.map fun e => decide (now > e)).getD false = false) :
    (do_filter (Except.ok (some tok)) (Except.ok ⟨200, raw⟩) (Except.ok now) =
        Except.error FilterError.NotYetActive ↔ now < nbfVal) ∧
    (now = nbfVal →
      do_filter (Except.ok (some tok)) (Except.ok ⟨200, raw⟩) (Except.ok now) =
        Except.ok ()) := by
  have hd := do_filter_200 tok raw ⟨true, exp, some nbfVal⟩ now h
  simp only [Bool.not_true, if_false, hexp, Bool.false_eq_true,
    Option.map_some, Option.getD_some] at hd
  constructor
  · by_cases hlt : now < nbfVal
    · simp [hd, hlt]
    · simp [hd, hlt]
  · intro heq
    subst heq
    simp [hd]

/-- C3 witness: with `exp = 5000` (not yet expired) and `nbf = 2000`,
the engine rejects with `NotYetActive` at `now = 1999` and allows at
`now = 2000`. -/
theorem not_yet_active_boundary_witness :
    do_filter (Except.ok (some "t"))
        (Except.ok ⟨200, Except.ok (Json.obj
          [("active", Json.bool true), ("exp", Json.num 5000),
           ("nbf", Json.num 2000)])⟩)
        (Except.ok 1999) = Except.error FilterError.NotYetActive ∧
    do_filter (Except.ok (some "t"))
        (Except.ok ⟨200, Except.ok (Json.obj
          [("active", Json.bool true), ("exp", Json.num 5000),
           ("nbf", Json.num 2000)])⟩)
        (Except.ok 2000) = Except.ok () :=
  ⟨((not_yet_active_boundary "t"
      (Except.ok (Json.obj [("active", Json.bool true), ("exp", Json.num 5000),
        ("nbf", Json.num 2000)]))
      (some 5000) 2000 1999 rfl (by decide)).1).2 (by decide),
   (not_yet_active_boundary "t"
      (Except.ok (Json.obj [("active", Json.bool true), ("exp", Json.num 5000),
        ("nbf", Json.num 2000)]))
      (some 5000) 2000 2000 rfl (by decide)).2 rfl⟩

/-- C4: any introspection status other than exactly 200 yields
`InactiveToken` without parsing the body (the result is the same for
every body), and the mapped response is 401 with the challenge header,
not 500. -/
theorem non_200_is_inactive (status : Nat) (raw : Except String Json)
    (tok : String) (clock : Except Unit Nat)
    (h : status ≠ 200) :
    introspect_token (Except.ok ⟨status, raw⟩) =
      Except.error FilterError.InactiveToken ∧
    do_filter (Except.ok (some tok)) (Except.ok ⟨status, raw⟩) clock =
      Except.error FilterError.InactiveToken ∧
    request_filter (Except.ok (some tok)) (Except.ok ⟨status, raw⟩) clock =
      Flow.Break ⟨401, [("WWW-Authenticate", "Bearer realm=\"oauth2\"")], ""⟩ := by
  have hi : introspect_token (Except.ok ⟨status, raw⟩) =
      Except.error FilterError.InactiveToken := by
    simp [introspect_token, h]
  refine ⟨hi, ?_, ?_⟩ <;>
    simp [do_filter, request_filter, hi, map_error, unauthorized_response,
      Response.new, Response.with_headers]

/-- C4 witness: a 503 from the introspection endpoint, with a body that
would not even parse, is rejected as `InactiveToken` with a 401. -/
theorem non_200_is_inactive_witness :
    introspect_token (Except.ok ⟨503, Except.error "unparsed"⟩) =
      Except.error FilterError.InactiveToken ∧
    do_filter (Except.ok (some "t")) (Except.ok ⟨503, Except.error "unparsed"⟩)
      (Except.ok 0) = Except.error FilterError.InactiveToken ∧
    request_filter (Except.ok (some "t")) (Except.ok ⟨503, Except.error "unparsed"⟩)
      (Except.ok 0) =
      Flow.Break ⟨401, [("WWW-Authenticate", "Bearer realm=\"oauth2\"")], ""⟩ :=
  non_200_is_inactive 503 (Except.error "unparsed") "t" (Except.ok 0) (by decide)

/-- C5: a 200 introspection response whose body fails to deserialize
into `IntrospectionResponse` yields `NonParsableIntrospectionBody`
carrying the parse error, mapped to a 500 response with a warn-level
log. -/
theorem parse_failure_is_500 (tok : String) (raw : Except String Json)
    (msg : String) (clock : Except Unit Nat)
    (h : serde_json_from_slice raw = Except.error msg) :
    do_filter (Except.ok (some tok)) (Except.ok ⟨200, raw⟩) clock =
      Except.error (FilterError.NonParsableIntrospectionBody msg) ∧
    request_filter (Except.ok (some tok)) (Except.ok ⟨200, raw⟩) clock =
      Flow.Break ⟨500, [], ""⟩ ∧
    error_log_level (FilterError.NonParsableIntrospectionBody msg) = LogLevel.warn := by
  have hi : introspect_token (Except.ok ⟨200, raw⟩) =
      Except.error (FilterError.NonParsableIntrospectionBody msg) := by
    simp [introspect_token, h]
  refine ⟨?_, ?_, rfl⟩ <;>
    simp [do_filter, request_filter, hi, map_error, server_error_response, Response.new]

/-- C5 witness: a 200 response whose JSON object lacks the required
`active` field maps to `NonParsableIntrospectionBody` and a 500. -/
theorem parse_failure_is_500_witness :
    do_filter (Except.ok (some "t"))
      (Except.ok ⟨200, Except.ok (Json.obj [("exp", Json.num 1000)])⟩)
      (Except.ok 0) =
      Except.error (FilterError.NonParsableIntrospectionBody "missing field active") ∧
    request_filter (Except.ok (some "t"))
      (Except.ok ⟨200, Except.ok (Json.obj [("exp", Json.num 1000)])⟩)
      (Except.ok 0) = Flow.Break ⟨500, [], ""⟩ ∧
    error_log_level (FilterError.NonParsableIntrospectionBody "missing field active") =
      LogLevel.warn :=
  parse_failure_is_500 "t" (Except.ok (Json.obj [("exp", Json.num 1000)]))
    "missing field active" (Except.ok 0) rfl

/-- C6: when no token can be resolved — the extractor fails on the
headers, or the resolved value is not representable as a string — the
outcome is `NoToken` and the response is 401 with the challenge header,
for every possible introspection result and clock (so the decision does
not depend on any introspection call). -/
theorem no_token_rejected (clientResult : Except String HttpResponse)
    (clock : Except Unit Nat) :
    do_filter (Except.error ()) clientResult clock =
      Except.error FilterError.NoToken ∧
    do_filter (Except.ok none) clientResult clock =
      Except.error FilterError.NoToken ∧
    request_filter (Except.error ()) clientResult clock =
      Flow.Break ⟨401, [("WWW-Authenticate", "Bearer realm=\"oauth2\"")], ""⟩ ∧
    request_filter (Except.ok none) clientResult clock =
      Flow.Break ⟨401, [("WWW-Authenticate", "Bearer realm=\"oauth2\"")], ""⟩ := by
  refine ⟨rfl, rfl, ?_, ?_⟩ <;>
    simp [request_filter, do_filter, map_error, unauthorized_response,
      Response.new, Response.with_headers]

/-- C7: the outcome mapper is total over the closed `FilterError` set:
`NoToken`, `InactiveToken`, `ExpiredToken` and `NotYetActive` map to 401
with the single challenge header pair, `Unexpected`, `ClientError` and
`NonParsableIntrospectionBody` map to 500 with no headers, both with
empty bodies; a filter run continues the request exactly when the engine
allowed it; and the filter never produces any status other than 401 and
500. -/
theorem outcome_mapper_total :
    map_error FilterError.Unexpected = Flow.Break ⟨500, [], ""⟩ ∧
    map_error FilterError.NoToken =
      Flow.Break ⟨401, [("WWW-Authenticate", "Bearer realm=\"oauth2\"")], ""⟩ ∧
    map_error FilterError.InactiveToken =
      Flow.Break ⟨401, [("WWW-Authenticate", "Bearer realm=\"oauth2\"")], ""⟩ ∧
    map_error FilterError.ExpiredToken =
      Flow.Break ⟨401, [("WWW-Authenticate", "Bearer realm=\"oauth2\"")], ""⟩ ∧
    map_error FilterError.NotYetActive =
      Flow.Break ⟨401, [("WWW-Authenticate", "Bearer realm=\"oauth2\"")], ""⟩ ∧
    (∀ s : String, map_error (FilterError.ClientError s) = Flow.Break ⟨500, [], ""⟩) ∧
    (∀ s : String, map_error (FilterError.NonParsableIntrospectionBody s) =
      Flow.Break ⟨500, [], ""⟩) ∧
    (∀ tokenResult clientResult clock,
      do_filter tokenResult clientResult clock = Except.ok () ↔
        request_filter tokenResult clientResult clock = Flow.Continue) ∧
    (∀ tokenResult clientResult clock,
      request_filter tokenResult clientResult clock = Flow.Continue ∨
      request_filter tokenResult clientResult clock =
        Flow.Break ⟨401, [("WWW-Authenticate", "Bearer realm=\"oauth2\"")], ""⟩ ∨
      request_filter tokenResult clientResult clock = Flow.Break ⟨500, [], ""⟩) := by
  refine ⟨rfl, rfl, rfl, rfl, rfl, fun s => rfl, fun s => rfl, ?_, ?_⟩
  · intro tokenResult clientResult clock
    unfold request_filter
    constructor
    · intro hok
      simp [hok]
    · intro hc
      rcases hdo : do_filter tokenResult clientResult clock with e | u
      · rw [hdo] at hc
        cases e <;> simp [map_error, unauthorized_response, server_error_response,
          Response.new, Response.with_headers] at hc
      · rfl
  · intro tokenResult clientResult clock
    unfold request_filter
    rcases do_filter tokenResult clientResult clock with e | u
    · cases e <;> simp [map_error, unauthorized_response, server_error_response,
        Response.new, Response.with_headers]
    · left; rfl

/-- C8: an `active == true` response with both `exp` and `nbf` absent is
allowed, and the request continues. -/
theorem active_without_claims_allowed (tok : String) (raw : Except String Json)
    (now : Nat)
    (h : serde_json_from_slice raw = Except.ok ⟨true, none, none⟩) :
    do_filter (Except.ok (some tok)) (Except.ok ⟨200, raw⟩) (Except.ok now) =
      Except.ok () ∧
    request_filter (Except.ok (some tok)) (Except.ok ⟨200, raw⟩) (Except.ok now) =
      Flow.Continue := by
  have hd := do_filter_200 tok raw ⟨true, none, none⟩ now h
  simp only [Bool.not_true, Option.map_none, Option.getD_none, if_false] at hd
  exact ⟨by simp [hd], by simp [request_filter, hd]⟩

/-- C8 witness: the body containing only `active: true` is allowed. -/
theorem active_without_claims_allowed_witness :
    do_filter (Except.ok (some "abc123"))
      (Except.ok ⟨200, Except.ok (Json.obj [("active", Json.bool true)])⟩)
      (Except.ok 1000000000) = Except.ok () ∧
    request_filter (Except.ok (some "abc123"))
      (Except.ok ⟨200, Except.ok (Json.obj [("active", Json.bool true)])⟩)
      (Except.ok 1000000000) = Flow.Continue :=
  active_without_claims_allowed "abc123"
    (Except.ok (Json.obj [("active", Json.bool true)])) 1000000000 rfl

/-- C9: the checks run in order — active flag, then expiry, then
not-before — short-circuiting at the first failure: an inactive response
is rejected as `InactiveToken` even if also expired, an expired response
is rejected as `ExpiredToken` even if also not yet active, and the
engine allows exactly when every check passes (any single violated check
suffices to reject). -/
theorem checks_ordered_short_circuit (tok : String) (raw : Except String Json)
    (now : Nat) :
    (∀ e n, serde_json_from_slice raw = Except.ok ⟨false, e, n⟩ →
      do_filter (Except.ok (some tok)) (Except.ok ⟨200, raw⟩) (Except.ok now) =
        Except.error FilterError.InactiveToken) ∧
    (∀ e n, serde_json_from_slice raw = Except.ok ⟨true, some e, n⟩ → now > e →
      do_filter (Except.ok (some tok)) (Except.ok ⟨200, raw⟩) (Except.ok now) =
        Except.error FilterError.ExpiredToken) ∧
    (∀ r, serde_json_from_slice raw = Except.ok r →
      (do_filter (Except.ok (some tok)) (Except.ok ⟨200, raw⟩) (Except.ok now) =
          Except.ok () ↔
        (r.active = true ∧
         (r.exp.map fun exp => decide (now > exp)).getD false = false ∧
         (r.nbf.map fun nbf => decide (now < nbf)).getD false = false))) := by
  refine ⟨?_, ?_, ?_⟩
  · intro e n h
    simpa using do_filter_200 tok raw ⟨false, e, n⟩ now h
  · intro e n h hgt
    have hd := do_filter_200 tok raw ⟨true, some e, n⟩ now h
    simp [hd, hgt]
  · intro r h
    have hd := do_filter_200 tok raw r now h
    rw [hd]
    constructor
    · intro hok
      by_cases ha : r.active = true
      · by_cases he : (r.exp.map fun exp => decide (now > exp)).getD false = true
        · simp [ha, he] at hok
        · by_cases hn : (r.nbf.map fun nbf => decide (now < nbf)).getD false = true
          · simp [ha, he, hn] at hok
          · exact ⟨ha, by simpa using he, by simpa using hn⟩
      · simp [ha] at hok
    · rintro ⟨ha, he, hn⟩
      simp [ha, he, hn]

/-- C9 witness: an inactive-and-expired body is rejected as
`InactiveToken`, and an expired-and-not-yet-active body as
`ExpiredToken`. -/
theorem checks_ordered_short_circuit_witness :
    do_filter (Except.ok (some "t"))
      (Except.ok ⟨200, Except.ok (Json.obj
        [("active", Json.bool false), ("exp", Json.num 5)])⟩)
      (Except.ok 10) = Except.error FilterError.InactiveToken ∧
    do_filter (Except.ok (some "t"))
      (Except.ok ⟨200, Except.ok (Json.obj
        [("active", Json.bool true), ("exp", Json.num 5), ("nbf", Json.num 20)])⟩)
      (Except.ok 10) = Except.error FilterError.ExpiredToken :=
  ⟨(checks_ordered_short_circuit "t"
      (Except.ok (Json.obj [("active", Json.bool false), ("exp", Json.num 5)]))
      10).1 (some 5) none rfl,
   (checks_ordered_short_circuit "t"
      (Except.ok (Json.obj [("active", Json.bool true), ("exp", Json.num 5),
        ("nbf", Json.num 20)]))
      10).2.1 5 (some 20) rfl (by decide)⟩

/-- Skipping an unknown field: a field whose key is none of `active`,
`exp`, `nbf` is consumed and ignored by the deserializer's field loop,
wherever it occurs and whatever the accumulator state. -/
lemma deserFields_skip_unknown (k : String) (v : Json)
    (h1 : k ≠ "active") (h2 : k ≠ "exp") (h3 : k ≠ "nbf") :
    ∀ (pre post : List (String × Json)) (accA : Option Bool)
      (accE accN : Option (Option Nat)),
      deserFields (pre ++ (k, v) :: post) accA accE accN =
        deserFields (pre ++ post) accA accE accN := by
  intro pre
  induction pre with
  | nil =>
    intro post accA accE accN
    simp [deserFields, h1, h2, h3]
  | cons head tail ih =>
    intro post accA accE accN
    obtain ⟨key, w⟩ := head
    by_cases hA : key = "active"
    · subst hA
      rcases accA with _ | b
      · cases w <;> simp [deserFields, ih]
      · simp [deserFields]
    · by_cases hE : key = "exp"
      · subst hE
        rcases accE with _ | o
        · rcases hv : asOptU64 w with msg | o
          · simp [deserFields, hv]
          · simp [deserFields, hv, ih]
        · simp [deserFields]
      · by_cases hN : key = "nbf"
        · subst hN
          rcases accN with _ | o
          · rcases hv : asOptU64 w with msg | o
            · simp [deserFields, hv]
            · simp [deserFields, hv, ih]
          · simp [deserFields]
        · simp [deserFields, hA, hE, hN, ih]

/-- C10: a 200 introspection body containing JSON fields beyond
`active`, `exp` and `nbf` deserializes exactly as the same body without
them — unknown fields are silently ignored — so the filter decision
depends only on the `active`, `exp` and `nbf` values in the body. -/
theorem unknown_fields_ignored (pre post : List (String × Json))
    (k : String) (v : Json)
    (h1 : k ≠ "active") (h2 : k ≠ "exp") (h3 : k ≠ "nbf") :
    deserializeIntrospection (Json.obj (pre ++ (k, v) :: post)) =
      deserializeIntrospection (Json.obj (pre ++ post)) ∧
    (∀ (tok : String) (now : Nat),
      do_filter (Except.ok (some tok))
          (Except.ok ⟨200, Except.ok (Json.obj (pre ++ (k, v) :: post))⟩)
          (Except.ok now) =
        do_filter (Except.ok (some tok))
          (Except.ok ⟨200, Except.ok (Json.obj (pre ++ post))⟩)
          (Except.ok now)) := by
  have hde : deserializeIntrospection (Json.obj (pre ++ (k, v) :: post)) =
      deserializeIntrospection (Json.obj (pre ++ post)) := by
    simp [deserializeIntrospection, deserFields_skip_unknown k v h1 h2 h3]
  refine ⟨hde, ?_⟩
  intro tok now
  have hs : serde_json_from_slice (Except.ok (Json.obj (pre ++ (k, v) :: post))) =
      serde_json_from_slice (Except.ok (Json.obj (pre ++ post))) := by
    simpa [serde_json_from_slice] using hde
  simp [do_filter, introspect_token, hs]

/-- C10 witness: an extra `scope` field does not change the
deserialization result nor the filter decision. -/
theorem unknown_fields_ignored_witness :
    deserializeIntrospection (Json.obj
        [("active", Json.bool true), ("scope", Json.str "read")]) =
      deserializeIntrospection (Json.obj [("active", Json.bool true)]) ∧
    do_filter (Except.ok (some "t"))
        (Except.ok ⟨200, Except.ok (Json.obj
          [("active", Json.bool true), ("scope", Json.str "read")])⟩)
        (Except.ok 5) =
      do_filter (Except.ok (some "t"))
        (Except.ok ⟨200, Except.ok (Json.obj [("active", Json.bool true)])⟩)
        (Except.ok 5) :=
  ⟨(unknown_fields_ignored [("active", Json.bool true)] [] "scope" (Json.str "read")
      (by decide) (by decide) (by decide)).1,
   (unknown_fields_ignored [("active", Json.bool true)] [] "scope" (Json.str "read")
      (by decide) (by decide) (by decide)).2 "t" 5⟩

end OAuthFilter
